import Mathlib

/-!
Gateway probe worker and `export-service`.

A shallow embedding of `controller/cmd/service-mirror/probe_worker.go` and of the
`RunE` body of `newExportServiceCommand` in `cli/cmd/cluster.go`.

Conventions of the embedding:

* a Go `map[string]struct{}` is a `Finset String`, `len` is `Finset.card`;
* a Prometheus gauge or histogram is the list of values written to it, oldest
  first (the value of a gauge is the last element); `float64(n)` of an integer
  is recorded as the integer itself;
* the logger is the list of formatted messages, oldest first;
* a Go panic is an explicit `panicked` field of the result;
* everything the code obtains from outside (the random draw, the HTTP round
  trip, the clock) is an argument.
-/

namespace ServiceMirror

/-! ## Data model -/

/-- The probe specification. Its declaration is not part of `probe_worker.go`; the
fields are the ones that file reads (`gatewayIps`, `port`, `path`,
`periodSeconds`). The two numeric fields are unsigned. -/
structure GatewayProbeSpec where
  gatewayIps : List String
  path : String
  port : Nat
  periodSeconds : Nat
  deriving DecidableEq, Repr

/-- The three metrics of a worker, each as the sequence of values written. -/
structure probeMetrics where
  services : List Nat
  alive : List Nat
  latencies : List Int
  deriving DecidableEq, Repr

/-- The worker (`type ProbeWorker struct`). `stopClosed` is the state of the
channel `stopCh`: `false` while open, `true` once closed. The embedded
`RWMutex` is modelled where it matters, in the interleaving semantics below. -/
structure ProbeWorker where
  probe : GatewayProbeSpec
  pairedServices : Finset String
  stopClosed : Bool
  metrics : probeMetrics
  log : List String

/-- The constructor `NewProbeWorker`. -/
def NewProbeWorker (probe : GatewayProbeSpec) (metrics : probeMetrics) (probekey : String) :
    ProbeWorker :=
  let _ := probekey
  { probe := probe
    pairedServices := ∅
    stopClosed := false
    metrics := metrics
    log := [] }

/-! ## Pairing -/

/-- The key of a service, `fmt.Sprintf("%s-%s", serviceNamespace, serviceName)`. -/
def svcKey (serviceName serviceNamespace : String) : String :=
  serviceNamespace ++ "-" ++ serviceName

/-- The method `NumPairedServices`. -/
def NumPairedServices (pw : ProbeWorker) : Nat :=
  pw.pairedServices.card

/-- The method `PairService`. -/
def PairService (pw : ProbeWorker) (serviceName serviceNamespace : String) : ProbeWorker :=
  let k := svcKey serviceName serviceNamespace
  if k ∈ pw.pairedServices then pw
  else
    let paired := insert k pw.pairedServices
    { pw with
      pairedServices := paired
      metrics := { pw.metrics with services := pw.metrics.services ++ [paired.card] } }

/-- The method `UnPairService`. -/
def UnPairService (pw : ProbeWorker) (serviceName serviceNamespace : String) : ProbeWorker :=
  let k := svcKey serviceName serviceNamespace
  if k ∈ pw.pairedServices then
    let paired := pw.pairedServices.erase k
    { pw with
      pairedServices := paired
      metrics := { pw.metrics with services := pw.metrics.services ++ [paired.card] } }
  else pw

/-- One call of the pairing interface. -/
inductive PairCall where
  | pair (serviceName serviceNamespace : String)
  | unpair (serviceName serviceNamespace : String)
  deriving DecidableEq, Repr

/-- Run a sequence of pairing calls, first call first. -/
def applyCalls (pw : ProbeWorker) : List PairCall → ProbeWorker
  | [] => pw
  | .pair n ns :: cs => applyCalls (PairService pw n ns) cs
  | .unpair n ns :: cs => applyCalls (UnPairService pw n ns) cs

/-- The metrics a fresh worker starts with: nothing written yet. -/
def noMetrics : probeMetrics := { services := [], alive := [], latencies := [] }

/-- A spec with no addresses. -/
def emptySpec : GatewayProbeSpec := { gatewayIps := [], path := "", port := 0, periodSeconds := 0 }

/-! ## Logging and metric writes -/

/-- Append one formatted message to the worker's log (`pw.log.Debug`,
`pw.log.Debugf`, `pw.log.Errorf`). -/
def logMsg (pw : ProbeWorker) (msg : String) : ProbeWorker :=
  { pw with log := pw.log ++ [msg] }

/-- The call `pw.metrics.alive.Set(v)`. -/
def aliveSet (pw : ProbeWorker) (v : Nat) : ProbeWorker :=
  { pw with metrics := { pw.metrics with alive := pw.metrics.alive ++ [v] } }

/-- The call `pw.metrics.latencies.Observe(v)`. -/
def latenciesObserve (pw : ProbeWorker) (v : Int) : ProbeWorker :=
  { pw with metrics := { pw.metrics with latencies := pw.metrics.latencies ++ [v] } }

/-! ## Stop -/

/-- Result of a call that may panic: the worker as the call left it, and whether
the call panicked. -/
structure StopRun where
  worker : ProbeWorker
  panicked : Bool

/-- The method `Stop`: log, then `close(pw.stopCh)`. Closing a channel that is already
closed is a run-time panic in Go. -/
def Stop (pw : ProbeWorker) : StopRun :=
  let pw1 := logMsg pw "Stopping probe worker for"
  if pw1.stopClosed then { worker := pw1, panicked := true }
  else { worker := { pw1 with stopClosed := true }, panicked := false }

/-- Call `Stop` `n` times in a row; a panic ends the sequence. -/
def stopTimes (pw : ProbeWorker) : Nat → StopRun
  | 0 => { worker := pw, panicked := false }
  | n + 1 =>
    let r := Stop pw
    if r.panicked then r else stopTimes r.worker n

/-! ## The probe -/

/-- The part of `http.Response` the probe uses: the status code, and what
`resp.Body.Close()` returns (`none` for a nil error). -/
structure Response where
  StatusCode : Int
  closeErr : Option String
  deriving DecidableEq, Repr

/-- The pair `(resp, err)` returned by `client.Get`; `none` is Go's `nil`. -/
structure GetResult where
  resp : Option Response
  err : Option String
  deriving DecidableEq, Repr

/-- What one probe meets outside the worker: the value of `rand.Int()` (never
negative), the outcome of `client.Get` for each URL string, the number of GET
requests the client puts on the wire during that call (none when the string does
not parse as a URL or no connection is made, more than one when the client
follows redirects), and the value of `time.Since(start)` in nanoseconds. -/
structure ProbeEnv where
  randInt : Nat
  get : String → GetResult
  sent : String → Nat
  elapsed : Int

/-- Result of one `doProbe`: the worker afterwards, the arguments of the calls of
`client.Get` it made (oldest first), the number of GET requests the client put
on the wire during those calls, and whether `doProbe` panicked. -/
structure ProbeRun where
  worker : ProbeWorker
  getCalls : List String
  sent : Nat
  panicked : Bool

/-- The method `pickAnIP`. Indexing a slice out of range is a panic: `none`. -/
def pickAnIP (pw : ProbeWorker) (randInt : Nat) : Option String :=
  let numIps := pw.probe.gatewayIps.length
  if numIps = 0 then some ""
  else pw.probe.gatewayIps[randInt % numIps]?

/-- The URL of a probe, `fmt.Sprintf("http://%s:%d/%s", ip, port, path)`. -/
def probeURL (ip : String) (port : Nat) (path : String) : String :=
  "http://" ++ ip ++ ":" ++ toString port ++ "/" ++ path

/-- The method `Duration.Milliseconds`: `int64(d) / 1e6`, Go's truncating division. -/
def Milliseconds (d : Int) : Int :=
  Int.tdiv d 1000000

/-- The statement `if err := resp.Body.Close(); err != nil { ... }` at the end of
the `else` branch of `doProbe`. With a nil `resp` the field access panics.
`getCalls` and `sent` are what the branch has done before. -/
def closeBody (pw : ProbeWorker) (getCalls : List String) (sent : Nat) (resp : Option Response) :
    ProbeRun :=
  match resp with
  | none => { worker := pw, getCalls := getCalls, sent := sent, panicked := true }
  | some r =>
    match r.closeErr with
    | some e =>
      { worker := logMsg pw ("Failed to close response body " ++ e)
        getCalls := getCalls, sent := sent, panicked := false }
    | none => { worker := pw, getCalls := getCalls, sent := sent, panicked := false }

/-- The method `doProbe`. The one call of `client.Get` is recorded with its
argument; what the client does with it is taken from `env`. -/
def doProbe (pw : ProbeWorker) (env : ProbeEnv) : ProbeRun :=
  match pickAnIP pw env.randInt with
  | none => { worker := pw, getCalls := [], sent := 0, panicked := true }
  | some ipToTry =>
    if ipToTry = "" then
      { worker := aliveSet (logMsg pw "No ips. Marking as unhealthy") 0
        getCalls := [], sent := 0, panicked := false }
    else
      let url := probeURL ipToTry pw.probe.port pw.probe.path
      let r := env.get url
      let end_ := env.elapsed
      match r.err, r.resp with
      | some err, resp =>
        closeBody
          (aliveSet (logMsg pw ("Problem connecting with gateway. Marking as unhealthy " ++ err)) 0)
          [url] (env.sent url) resp
      | none, none => { worker := pw, getCalls := [url], sent := env.sent url, panicked := true }
      | none, some resp =>
        if resp.StatusCode ≠ 200 then
          closeBody
            (aliveSet (logMsg pw ("Gateway returned unexpected status " ++ toString resp.StatusCode
              ++ ". Marking as unhealthy")) 0)
            [url] (env.sent url) (some resp)
        else
          closeBody
            (latenciesObserve (aliveSet (logMsg pw "Gateway is healthy") 1) (Milliseconds end_))
            [url] (env.sent url) (some resp)

/-! ## The scheduling loop -/

/-- The constant `time.Millisecond`, in nanoseconds (the unit of `time.Duration`). -/
def Millisecond : Int := 1000000

/-- The constant `time.Second`, in nanoseconds. -/
def Second : Int := 1000 * Millisecond

/-- Two's-complement wrap of an integer to `int64`, the type under
`time.Duration`. -/
def wrapInt64 (x : Int) : Int :=
  (x + 2 ^ 63) % 2 ^ 64 - 2 ^ 63

/-- The first four lines of `run`: the two arguments the loop hands to
`NewTicker`, as `(probeTickerPeriod, maxJitter)` in nanoseconds. -/
def tickerArgs (pw : ProbeWorker) : Int × Int :=
  let periodInMillis := pw.probe.periodSeconds
  let probeTickerPeriod := wrapInt64 ((periodInMillis : Int) * Millisecond)
  let maxJitter := wrapInt64 (((periodInMillis / 10 : Nat) : Int) * Millisecond)
  (probeTickerPeriod, maxJitter)

/-- Which case a `select` over `pw.stopCh` and `probeTicker.C` takes. A closed
channel is always ready to receive. When both cases are ready Go picks one of
them by a pseudo-random draw, here the argument `pickTick`; when none is ready
the statement blocks. -/
inductive Selected where
  | stopCh
  | tickerC
  | blocked
  deriving DecidableEq, Repr

/-- The `select` statement of `run`. -/
def selectCase (stopClosed tickReady pickTick : Bool) : Selected :=
  match stopClosed, tickReady with
  | true, true => if pickTick then .tickerC else .stopCh
  | true, false => .stopCh
  | false, true => .tickerC
  | false, false => .blocked

/-- State of the goroutine running `run`: the worker, the number of `doProbe`
calls started so far, the calls of `client.Get` made, whether the loop has been left
(`break probeLoop`), and whether a probe panicked. -/
structure LoopState where
  worker : ProbeWorker
  probes : Nat
  getCalls : List String
  exited : Bool
  panicked : Bool

/-- What happens around the loop: another goroutine calls `Stop`, or the loop
reaches its wait point, with a tick ready or not, the draw `select` would use,
and the surroundings a probe started there would meet. -/
inductive LoopEvent where
  | stop
  | waitPoint (tickReady pickTick : Bool) (env : ProbeEnv)

/-- One iteration of `probeLoop` at a wait point. -/
def loopIteration (s : LoopState) (tickReady pickTick : Bool) (env : ProbeEnv) : LoopState :=
  if s.exited || s.panicked then s
  else
    match selectCase s.worker.stopClosed tickReady pickTick with
    | .stopCh => { s with exited := true }
    | .tickerC =>
      let r := doProbe s.worker env
      { s with
        worker := r.worker
        probes := s.probes + 1
        getCalls := s.getCalls ++ r.getCalls
        panicked := r.panicked }
    | .blocked => s

/-- One event of the schedule. -/
def loopStep (s : LoopState) : LoopEvent → LoopState
  | .stop =>
    let r := Stop s.worker
    { s with worker := r.worker, panicked := s.panicked || r.panicked }
  | .waitPoint tickReady pickTick env => loopIteration s tickReady pickTick env

/-- The goroutine started by `Start`, run against a schedule of events. -/
def run (pw : ProbeWorker) (events : List LoopEvent) : LoopState :=
  events.foldl loopStep
    { worker := pw, probes := 0, getCalls := [], exited := false, panicked := false }

/-! ## `UpdateProbeSpec` against a running probe

The worker embeds a `sync.RWMutex`. `doProbe` takes the read lock on entry and
releases it on return (`defer`); `UpdateProbeSpec` takes the write lock around
its single assignment. The goroutines are interleaved at the grain of one lock
operation or one access to `pw.probe` per step. -/

/-- The goroutine inside `doProbe`, up to the point where the URL is built.
`pc` counts the statements done: 0 before `RLock`, 1 before `len(pw.probe.gatewayIps)`,
2 before the indexing in `pickAnIP`, 3 before the read of `pw.probe.port`,
4 before the read of `pw.probe.path`, 5 before the deferred `RUnlock`, 6 after it.
`ipToTry` is `none` if the indexing panicked. -/
structure Prober where
  pc : Nat
  numIps : Nat
  ipToTry : Option String
  port : Nat
  path : String
  deriving DecidableEq, Repr

/-- A goroutine inside `UpdateProbeSpec(spec)`: `pc` is 0 before `Lock`, 1 before
the assignment, 2 before `Unlock`, 3 after it. -/
structure Updater where
  pc : Nat
  spec : GatewayProbeSpec
  deriving DecidableEq, Repr

/-- The shared worker state the two methods touch, and the goroutines. `readers`
and `writer` are the state of the `RWMutex`: the number of read locks held, and
whether the write lock is held. -/
structure Sys where
  probe : GatewayProbeSpec
  readers : Nat
  writer : Bool
  prober : Prober
  updaters : List Updater
  randInt : Nat
  deriving DecidableEq, Repr

/-- One step of the probing goroutine. `RLock` waits while the write lock is
held. After `pickAnIP` returned the empty string, or panicked, the fields `port`
and `path` are not read and the deferred `RUnlock` is next. -/
def proberStep (s : Sys) : Sys :=
  match s.prober.pc with
  | 0 =>
    if s.writer then s
    else { s with readers := s.readers + 1, prober := { s.prober with pc := 1 } }
  | 1 => { s with prober := { s.prober with pc := 2, numIps := s.probe.gatewayIps.length } }
  | 2 =>
    let ip :=
      if s.prober.numIps = 0 then some ""
      else s.probe.gatewayIps[s.randInt % s.prober.numIps]?
    { s with prober := { s.prober with pc := if ip = none ∨ ip = some "" then 5 else 3, ipToTry := ip } }
  | 3 => { s with prober := { s.prober with pc := 4, port := s.probe.port } }
  | 4 => { s with prober := { s.prober with pc := 5, path := s.probe.path } }
  | 5 => { s with readers := s.readers - 1, prober := { s.prober with pc := 6 } }
  | _ => s

/-- One step of the `i`-th goroutine running `UpdateProbeSpec`. `Lock` waits
while any lock is held. -/
def updaterStep (s : Sys) (i : Nat) : Sys :=
  match s.updaters[i]? with
  | none => s
  | some u =>
    match u.pc with
    | 0 =>
      if s.writer || decide (0 < s.readers) then s
      else { s with writer := true, updaters := s.updaters.set i { u with pc := 1 } }
    | 1 => { s with probe := u.spec, updaters := s.updaters.set i { u with pc := 2 } }
    | 2 => { s with writer := false, updaters := s.updaters.set i { u with pc := 3 } }
    | _ => s

/-- One step of the goroutine the scheduler picks: 0 is the probe, `i + 1` the
`i`-th `UpdateProbeSpec` call. A goroutine that is waiting or finished does not
move. -/
def sysStep (s : Sys) : Nat → Sys
  | 0 => proberStep s
  | i + 1 => updaterStep s i

/-- Run a schedule. -/
def exec (s : Sys) (schedule : List Nat) : Sys :=
  schedule.foldl sysStep s

/-- A worker with spec `spec`, nothing locked, a probe about to start and one
`UpdateProbeSpec` call about to start for each element of `specs`. -/
def initSys (spec : GatewayProbeSpec) (specs : List GatewayProbeSpec) (randInt : Nat) : Sys :=
  { probe := spec
    readers := 0
    writer := false
    prober := { pc := 0, numIps := 0, ipToTry := some "", port := 0, path := "" }
    updaters := specs.map fun sp => { pc := 0, spec := sp }
    randInt := randInt }

/-- What `pickAnIP` returns when every access to `pw.probe` sees `spec`. -/
def pickFrom (spec : GatewayProbeSpec) (randInt : Nat) : Option String :=
  if spec.gatewayIps.length = 0 then some ""
  else spec.gatewayIps[randInt % spec.gatewayIps.length]?

/-- The probe's reads all come from the one spec `spec`: the address is what
`pickAnIP` returns on `spec`, and when that is an address to try, port and
path are those of `spec`. -/
def readsFrom (p : Prober) (spec : GatewayProbeSpec) (randInt : Nat) : Prop :=
  p.ipToTry = pickFrom spec randInt ∧
    (p.ipToTry ≠ none → p.ipToTry ≠ some "" → p.port = spec.port ∧ p.path = spec.path)

instance (p : Prober) (spec : GatewayProbeSpec) (randInt : Nat) :
    Decidable (readsFrom p spec randInt) :=
  inferInstanceAs (Decidable (_ ∧ _))

/-- The goroutine is between its `Lock` and its `Unlock`. -/
def Updater.holds (u : Updater) : Bool :=
  u.pc == 1 || u.pc == 2

/-- What the probe has read so far agrees with the spec the worker holds now
(while the read lock is held) or with one of the candidate specs (after the
lock is released). -/
def ReadsInv (cands : List GatewayProbeSpec) (s : Sys) : Prop :=
  match s.prober.pc with
  | 0 => True
  | 1 => True
  | 2 => s.prober.numIps = s.probe.gatewayIps.length
  | 3 =>
    s.prober.ipToTry = pickFrom s.probe s.randInt ∧
      s.prober.ipToTry ≠ none ∧ s.prober.ipToTry ≠ some ""
  | 4 =>
    s.prober.ipToTry = pickFrom s.probe s.randInt ∧
      s.prober.ipToTry ≠ none ∧ s.prober.ipToTry ≠ some "" ∧ s.prober.port = s.probe.port
  | 5 => readsFrom s.prober s.probe s.randInt
  | _ => ∃ snap, snap ∈ cands ∧ readsFrom s.prober snap s.randInt

/-- The invariant of the interleaving semantics, relative to the specs that can
ever be installed: the lock counters say who is inside which section, readers
and the writer exclude each other, and `ReadsInv` holds. -/
structure LockInv (cands : List GatewayProbeSpec) (s : Sys) : Prop where
  probe_mem : s.probe ∈ cands
  specs_mem : ∀ u, u ∈ s.updaters → u.spec ∈ cands
  readers_eq : s.readers = if 1 ≤ s.prober.pc ∧ s.prober.pc ≤ 5 then 1 else 0
  writer_eq : s.updaters.countP Updater.holds = if s.writer = true then 1 else 0
  excl : s.writer = true → s.readers = 0
  reads : ReadsInv cands s

end ServiceMirror

/-! ## `linkerd cluster export-service` -/

namespace Cli

/-- The part of `corev1.Service` the command uses. `Annotations` is a Go map;
`none` is the nil map, which is what a service without annotations has. -/
structure Service where
  Namespace : String
  Name : String
  Annotations : Option (Finmap fun _ : String => String)

/-- The struct `exportServiceOptions` (the field `namespace` is spelled `namespace_`). -/
structure exportServiceOptions where
  namespace_ : String
  service : String
  gatewayNamespace : String
  gatewayName : String

/-- What the command meets outside: the two annotation keys of package `k8s`
(not part of this file), the errors of `loader.RawConfig()` and `k8s.NewAPI`
(`none` is nil), and the cluster's answers to `Services(ns).Get(name)` and
`Services(ns).Update(svc)`. -/
structure Cluster where
  GatewayNameAnnotation : String
  GatewayNsAnnotation : String
  rawConfigErr : Option String
  newAPIErr : Option String
  get : String → String → Except String Service
  updateErr : String → Service → Option String

/-- Result of `RunE`: the returned error (`none` is nil), the object handed to
`Update` if the call was reached, the lines printed, and whether it panicked. -/
structure ExportRun where
  err : Option String
  updated : Option Service
  stdout : List String
  panicked : Bool

/-- Go's `m[k] = v`: a panic (`none`) on the nil map. -/
def mapAssign (m : Option (Finmap fun _ : String => String)) (k v : String) :
    Option (Finmap fun _ : String => String) :=
  match m with
  | none => none
  | some m => some (m.insert k v)

/-- Go's `_, ok := m[k]`: `false` on the nil map. -/
def mapHas (m : Option (Finmap fun _ : String => String)) (k : String) : Bool :=
  match m with
  | none => false
  | some m => decide (k ∈ m)

/-- The `RunE` function of `newExportServiceCommand`. -/
def exportService (opts : exportServiceOptions) (k : Cluster) : ExportRun :=
  match k.rawConfigErr with
  | some e => { err := some e, updated := none, stdout := [], panicked := false }
  | none =>
  match k.newAPIErr with
  | some e => { err := some e, updated := none, stdout := [], panicked := false }
  | none =>
  match k.get opts.namespace_ opts.service with
  | .error e => { err := some e, updated := none, stdout := [], panicked := false }
  | .ok svc =>
    let hasGatewayName := mapHas svc.Annotations k.GatewayNameAnnotation
    let hasGatewayNs := mapHas svc.Annotations k.GatewayNsAnnotation
    if hasGatewayName || hasGatewayNs then
      { err := some ("service " ++ svc.Namespace ++ "/" ++ svc.Name ++ " has already been exported")
        updated := none, stdout := [], panicked := false }
    else
      match mapAssign svc.Annotations k.GatewayNameAnnotation opts.gatewayName with
      | none => { err := none, updated := none, stdout := [], panicked := true }
      | some a1 =>
      match mapAssign (some a1) k.GatewayNsAnnotation opts.gatewayNamespace with
      | none => { err := none, updated := none, stdout := [], panicked := true }
      | some a2 =>
        let svc1 : Service := { svc with Annotations := some a2 }
        match k.updateErr svc1.Namespace svc1 with
        | some e => { err := some e, updated := some svc1, stdout := [], panicked := false }
        | none =>
          { err := none, updated := some svc1
            stdout := ["Service " ++ svc1.Namespace ++ "/" ++ svc1.Name ++ " is now exported"]
            panicked := false }

end Cli

/-! ## Concrete inputs -/

namespace ServiceMirror

/-- A spec with one address. -/
def oneIpSpec : GatewayProbeSpec :=
  { gatewayIps := ["10.0.0.1"], path := "health", port := 4181, periodSeconds := 10 }

/-- A spec whose only address is the empty string. -/
def blankIpSpec : GatewayProbeSpec :=
  { gatewayIps := [""], path := "health", port := 4181, periodSeconds := 10 }

/-- A fresh worker on `oneIpSpec`. -/
def oneIpWorker : ProbeWorker := NewProbeWorker oneIpSpec noMetrics "gw"

/-- A fresh worker on `blankIpSpec`. -/
def blankIpWorker : ProbeWorker := NewProbeWorker blankIpSpec noMetrics "gw"

/-- The endpoint answers 200 after 12.345678 ms. -/
def env200 : ProbeEnv :=
  { randInt := 7
    get := fun _ => { resp := some { StatusCode := 200, closeErr := none }, err := none }
    sent := fun _ => 1
    elapsed := 12345678 }

/-- The endpoint answers with one redirect and then 200: the client sends two
GET requests during the one call. -/
def envRedirect : ProbeEnv :=
  { randInt := 7
    get := fun _ => { resp := some { StatusCode := 200, closeErr := none }, err := none }
    sent := fun _ => 2
    elapsed := 23456789 }

/-- A spec whose only address is not a host name. -/
def badHostSpec : GatewayProbeSpec :=
  { gatewayIps := ["gw host"], path := "health", port := 4181, periodSeconds := 10 }

/-- A fresh worker on `badHostSpec`. -/
def badHostWorker : ProbeWorker := NewProbeWorker badHostSpec noMetrics "gw"

/-- The URL string does not parse: `client.Get` sends nothing and returns a nil
response and an error. -/
def envBadURL : ProbeEnv :=
  { randInt := 7
    get := fun _ =>
      { resp := none
        err := some "parse http://gw host:4181/health: invalid character in host name" }
    sent := fun _ => 0
    elapsed := 1000 }

/-- The connection is refused: `client.Get` returns a nil response and an error. -/
def envRefused : ProbeEnv :=
  { randInt := 7
    get := fun _ => { resp := none, err := some "dial tcp 10.0.0.1:4181: connect: connection refused" }
    sent := fun _ => 0
    elapsed := 1000 }

end ServiceMirror

namespace ServiceMirror

/-- The spec installed by the `UpdateProbeSpec` call of the example schedule. -/
def newIpSpec : GatewayProbeSpec :=
  { gatewayIps := ["10.0.0.2", "10.0.0.3"], path := "ready", port := 4191, periodSeconds := 5 }

/-- A schedule in which the update asks for the lock while the probe reads, is
kept waiting after each of the probe's steps, and runs once the probe has
released the read lock. -/
def updateDuringProbe : List Nat := [0, 1, 0, 1, 0, 1, 0, 1, 0, 1, 0, 1, 1, 1]

/-- A schedule in which the update completes before the probe starts. -/
def updateBeforeProbe : List Nat := [1, 1, 1, 0, 0, 0, 0, 0, 0]

end ServiceMirror

namespace Cli

/-- A service without annotations, as the API server returns it: the map is nil. -/
def bareService : Service :=
  { Namespace := "default", Name := "backend-svc", Annotations := none }

/-- A cluster that holds `bareService` and accepts every update. -/
def bareCluster : Cluster :=
  { GatewayNameAnnotation := "mirror.linkerd.io/gateway-name"
    GatewayNsAnnotation := "mirror.linkerd.io/gateway-ns"
    rawConfigErr := none
    newAPIErr := none
    get := fun _ _ => .ok bareService
    updateErr := fun _ _ => none }

/-- The options of the example in the command's help text. -/
def exampleOpts : exportServiceOptions :=
  { namespace_ := "default", service := "backend-svc"
    gatewayNamespace := "default", gatewayName := "linkerd-gateway" }

end Cli

/-! ## Theorems: pairing -/

namespace ServiceMirror

/-- C1 (code defect): on a fresh worker, pairing service `c` of namespace `a-b`
and then service `b-c` of namespace `a`, two identities that differ in both
namespace and name, leaves `NumPairedServices` at 1: both calls build the key
`a-b-c`. -/
theorem NumPairedServices_collision :
    (("a-b", "c") : String × String) ≠ ("a", "b-c") ∧
      svcKey "c" "a-b" = svcKey "b-c" "a" ∧
      NumPairedServices
        (applyCalls (NewProbeWorker emptySpec noMetrics "gw") [.pair "c" "a-b", .pair "b-c" "a"])
        = 1 := by
  refine ⟨by decide, by decide, ?_⟩
  simp [applyCalls, PairService, NewProbeWorker, NumPairedServices, svcKey]

/-- Pairing by key: what the two methods do in terms of the key of the service,
which is all the worker stores. `PairService` with a key that is in
`pairedServices` and `UnPairService` with a key that is not return the worker
unchanged (set, count, gauge and log); a call that changes the set inserts or
removes exactly that key and appends exactly one value to the
paired-service-count gauge, the size of the set after the change. On a fresh
worker: pairing `svcA` of `ns` twice gives 1, unpairing gives 0, unpairing
again gives 0. Two services with the same key are one entry here. -/
theorem PairService_UnPairService_gauge (pw : ProbeWorker) (serviceName serviceNamespace : String) :
    (svcKey serviceName serviceNamespace ∈ pw.pairedServices →
        PairService pw serviceName serviceNamespace = pw) ∧
      (svcKey serviceName serviceNamespace ∉ pw.pairedServices →
        UnPairService pw serviceName serviceNamespace = pw) ∧
      (svcKey serviceName serviceNamespace ∉ pw.pairedServices →
        (PairService pw serviceName serviceNamespace).pairedServices
            = insert (svcKey serviceName serviceNamespace) pw.pairedServices ∧
          NumPairedServices (PairService pw serviceName serviceNamespace)
            = NumPairedServices pw + 1 ∧
          (PairService pw serviceName serviceNamespace).metrics.services
            = pw.metrics.services
              ++ [NumPairedServices (PairService pw serviceName serviceNamespace)]) ∧
      (svcKey serviceName serviceNamespace ∈ pw.pairedServices →
        (UnPairService pw serviceName serviceNamespace).pairedServices
            = pw.pairedServices.erase (svcKey serviceName serviceNamespace) ∧
          NumPairedServices (UnPairService pw serviceName serviceNamespace) + 1
            = NumPairedServices pw ∧
          (UnPairService pw serviceName serviceNamespace).metrics.services
            = pw.metrics.services
              ++ [NumPairedServices (UnPairService pw serviceName serviceNamespace)]) ∧
      (let fresh := NewProbeWorker emptySpec noMetrics "gw"
       NumPairedServices (applyCalls fresh [.pair "svcA" "ns", .pair "svcA" "ns"]) = 1 ∧
        NumPairedServices
          (applyCalls fresh [.pair "svcA" "ns", .pair "svcA" "ns", .unpair "svcA" "ns"]) = 0 ∧
        NumPairedServices
          (applyCalls fresh
            [.pair "svcA" "ns", .pair "svcA" "ns", .unpair "svcA" "ns", .unpair "svcA" "ns"])
          = 0) := by
  refine ⟨?_, ?_, ?_, ?_, ?_⟩
  · intro h
    simp [PairService, h]
  · intro h
    simp [UnPairService, h]
  · intro h
    simp [PairService, h, NumPairedServices, Finset.card_insert_of_not_mem]
  · intro h
    have hpos : 0 < pw.pairedServices.card := Finset.card_pos.mpr ⟨_, h⟩
    simp [UnPairService, h, NumPairedServices, Finset.card_erase_of_mem]
    omega
  · simp [applyCalls, PairService, UnPairService, NewProbeWorker, NumPairedServices, svcKey]

/-- C5 (code defect): on a fresh worker, after pairing service `c` of namespace
`a-b` (count 1, gauge written once), `UnPairService` for service `b-c` of
namespace `a`, an identity that was never paired, is not a no-op: both
identities have the key `a-b-c`, so the call empties the set, the count drops to
0 and the gauge is written again. `PairService` for `c` of `a-b`, which was
paired and never unpaired, is then not a no-op either: the gauge is written a
third time. -/
theorem UnPairService_collision :
    (("a", "b-c") : String × String) ≠ ("a-b", "c") ∧
      svcKey "c" "a-b" = "a-b-c" ∧
      svcKey "b-c" "a" = "a-b-c" ∧
      NumPairedServices (applyCalls (NewProbeWorker emptySpec noMetrics "gw") [.pair "c" "a-b"])
        = 1 ∧
      (applyCalls (NewProbeWorker emptySpec noMetrics "gw") [.pair "c" "a-b"]).metrics.services
        = [1] ∧
      NumPairedServices
        (applyCalls (NewProbeWorker emptySpec noMetrics "gw") [.pair "c" "a-b", .unpair "b-c" "a"])
        = 0 ∧
      (applyCalls (NewProbeWorker emptySpec noMetrics "gw")
        [.pair "c" "a-b", .unpair "b-c" "a"]).metrics.services = [1, 0] ∧
      (applyCalls (NewProbeWorker emptySpec noMetrics "gw")
        [.pair "c" "a-b", .unpair "b-c" "a", .pair "c" "a-b"]).metrics.services = [1, 0, 1] := by
  refine ⟨by decide, by decide, by decide, ?_, ?_, ?_, ?_, ?_⟩ <;>
    simp [applyCalls, PairService, UnPairService, NewProbeWorker, NumPairedServices, svcKey,
      noMetrics]

/-! ## Theorems: the probe -/

/-- Closing: `closeBody` on a response that is present writes no metric, adds no
call and does not panic. -/
theorem closeBody_some (pw : ProbeWorker) (getCalls : List String) (sent : Nat) (resp : Response) :
    (closeBody pw getCalls sent (some resp)).worker.metrics = pw.metrics ∧
      (closeBody pw getCalls sent (some resp)).getCalls = getCalls ∧
      (closeBody pw getCalls sent (some resp)).sent = sent ∧
      (closeBody pw getCalls sent (some resp)).panicked = false := by
  rcases resp with ⟨code, _ | e⟩ <;> simp [closeBody, logMsg]

/-- Bounds: `pickAnIP` never indexes out of range: it returns the empty string on an
empty list and the element at `randInt % len` otherwise. -/
theorem pickAnIP_in_bounds (pw : ProbeWorker) (randInt : Nat) :
    (pw.probe.gatewayIps = [] → pickAnIP pw randInt = some "") ∧
      (pw.probe.gatewayIps ≠ [] →
        randInt % pw.probe.gatewayIps.length < pw.probe.gatewayIps.length ∧
          ∃ a, a ∈ pw.probe.gatewayIps ∧
            pw.probe.gatewayIps[randInt % pw.probe.gatewayIps.length]? = some a ∧
            pickAnIP pw randInt = some a) := by
  constructor
  · intro h
    simp [pickAnIP, h]
  · intro h
    have hlen : 0 < pw.probe.gatewayIps.length := List.length_pos.mpr h
    have hlt : randInt % pw.probe.gatewayIps.length < pw.probe.gatewayIps.length :=
      Nat.mod_lt _ hlen
    refine ⟨hlt, pw.probe.gatewayIps[randInt % pw.probe.gatewayIps.length], ?_, ?_, ?_⟩
    · exact List.getElem_mem _
    · exact List.getElem?_eq_getElem hlt
    · have hne : pw.probe.gatewayIps.length ≠ 0 := Nat.pos_iff_ne_zero.mp hlen
      simp [pickAnIP, hne, List.getElem?_eq_getElem hlt]

/-- When `pickAnIP` selects an address that is not the empty string, `doProbe`
calls `client.Get` exactly once, with the URL string built from that address and
the port and path of the spec, whatever the answer is; the GET requests sent are
those of that call. -/
theorem doProbe_getCalls_of_pick (pw : ProbeWorker) (env : ProbeEnv) (a : String)
    (hpick : pickAnIP pw env.randInt = some a) (ha : a ≠ "") :
    (doProbe pw env).getCalls = [probeURL a pw.probe.port pw.probe.path] ∧
      (doProbe pw env).sent = env.sent (probeURL a pw.probe.port pw.probe.path) := by
  simp only [doProbe, hpick, ha, if_false]
  rcases hr : env.get (probeURL a pw.probe.port pw.probe.path) with ⟨_ | resp, _ | err⟩
  · simp
  · simp [closeBody]
  · by_cases hs : resp.StatusCode = 200
    · simp [hs, (closeBody_some _ _ _ _).2.1, (closeBody_some _ _ _ _).2.2.1]
    · simp [hs, (closeBody_some _ _ _ _).2.1, (closeBody_some _ _ _ _).2.2.1]
  · simp [(closeBody_some _ _ _ _).2.1, (closeBody_some _ _ _ _).2.2.1]

/-- C2: when `pickAnIP` selects an address `ip` (not the empty string) and the
GET to its URL returns a response and a nil error, `doProbe` does not panic and
makes that one call of `client.Get`; on status 200 it appends 1 to the liveness gauge and
exactly one observation to the latency histogram, the elapsed time in whole
milliseconds, which is not negative when the elapsed time is not; on any other
status it appends 0 to the liveness gauge and observes nothing. -/
theorem doProbe_response (pw : ProbeWorker) (env : ProbeEnv) (ip : String) (resp : Response)
    (hpick : pickAnIP pw env.randInt = some ip) (hip : ip ≠ "")
    (hget : env.get (probeURL ip pw.probe.port pw.probe.path) = { resp := some resp, err := none })
    (hclock : 0 ≤ env.elapsed) :
    (doProbe pw env).panicked = false ∧
      (doProbe pw env).getCalls = [probeURL ip pw.probe.port pw.probe.path] ∧
      (resp.StatusCode = 200 →
        (doProbe pw env).worker.metrics.alive = pw.metrics.alive ++ [1] ∧
          (doProbe pw env).worker.metrics.latencies
            = pw.metrics.latencies ++ [Milliseconds env.elapsed] ∧
          0 ≤ Milliseconds env.elapsed) ∧
      (resp.StatusCode ≠ 200 →
        (doProbe pw env).worker.metrics.alive = pw.metrics.alive ++ [0] ∧
          (doProbe pw env).worker.metrics.latencies = pw.metrics.latencies) := by
  have hms : 0 ≤ Milliseconds env.elapsed := by
    unfold Milliseconds
    exact Int.tdiv_nonneg hclock (by decide)
  by_cases hs : resp.StatusCode = 200
  · have hd : doProbe pw env = closeBody
        (latenciesObserve (aliveSet (logMsg pw "Gateway is healthy") 1)
          (Milliseconds env.elapsed))
        [probeURL ip pw.probe.port pw.probe.path]
        (env.sent (probeURL ip pw.probe.port pw.probe.path)) (some resp) := by
      simp [doProbe, hpick, hip, hget, hs]
    have h := closeBody_some
      (latenciesObserve (aliveSet (logMsg pw "Gateway is healthy") 1) (Milliseconds env.elapsed))
      [probeURL ip pw.probe.port pw.probe.path]
      (env.sent (probeURL ip pw.probe.port pw.probe.path)) resp
    rw [hd]
    refine ⟨h.2.2.2, h.2.1, fun _ => ⟨?_, ?_, hms⟩, fun hc => absurd hs hc⟩
    · rw [h.1]; simp [latenciesObserve, aliveSet, logMsg]
    · rw [h.1]; simp [latenciesObserve, aliveSet, logMsg]
  · have hd : doProbe pw env = closeBody
        (aliveSet (logMsg pw ("Gateway returned unexpected status " ++ toString resp.StatusCode
          ++ ". Marking as unhealthy")) 0)
        [probeURL ip pw.probe.port pw.probe.path]
        (env.sent (probeURL ip pw.probe.port pw.probe.path)) (some resp) := by
      simp [doProbe, hpick, hip, hget, hs]
    have h := closeBody_some
      (aliveSet (logMsg pw ("Gateway returned unexpected status " ++ toString resp.StatusCode
        ++ ". Marking as unhealthy")) 0)
      [probeURL ip pw.probe.port pw.probe.path]
      (env.sent (probeURL ip pw.probe.port pw.probe.path)) resp
    rw [hd]
    refine ⟨h.2.2.2, h.2.1, fun hc => absurd hc hs, fun _ => ⟨?_, ?_⟩⟩
    · rw [h.1]; simp [aliveSet, logMsg]
    · rw [h.1]; simp [aliveSet, logMsg]

/-- Witness for C2: one address, the endpoint answers 200. -/
theorem doProbe_response_witness :
    pickAnIP oneIpWorker env200.randInt = some "10.0.0.1" ∧
      (doProbe oneIpWorker env200).panicked = false ∧
      (doProbe oneIpWorker env200).worker.metrics.alive = [1] ∧
      (doProbe oneIpWorker env200).worker.metrics.latencies = [12] :=
  have h := doProbe_response oneIpWorker env200 "10.0.0.1" { StatusCode := 200, closeErr := none }
    (by decide) (by decide) rfl (by decide)
  ⟨by decide, h.1, (h.2.2.1 rfl).1, (h.2.2.1 rfl).2.1⟩

/-- C3 (code defect): with one address and a refused connection (`client.Get`
returns a nil response and an error), `doProbe` appends 0 to the liveness gauge,
observes no latency, and then panics: `resp.Body.Close()` is reached with
`resp` nil. -/
theorem doProbe_refused_panics :
    (doProbe oneIpWorker envRefused).worker.metrics.alive = [0] ∧
      (doProbe oneIpWorker envRefused).worker.metrics.latencies = [] ∧
      (doProbe oneIpWorker envRefused).getCalls = ["http://10.0.0.1:4181/health"] ∧
      (doProbe oneIpWorker envRefused).panicked = true := by
  have hpick : pickAnIP oneIpWorker envRefused.randInt = some "10.0.0.1" := by decide
  have hip : ("10.0.0.1" : String) ≠ "" := by decide
  have hurl : probeURL "10.0.0.1" oneIpWorker.probe.port oneIpWorker.probe.path
      = "http://10.0.0.1:4181/health" := by decide
  have hget : envRefused.get "http://10.0.0.1:4181/health"
      = { resp := none, err := some "dial tcp 10.0.0.1:4181: connect: connection refused" } := rfl
  have hd : doProbe oneIpWorker envRefused
      = { worker := aliveSet (logMsg oneIpWorker ("Problem connecting with gateway. Marking as unhealthy "
            ++ "dial tcp 10.0.0.1:4181: connect: connection refused")) 0
          getCalls := ["http://10.0.0.1:4181/health"]
          sent := 0
          panicked := true } := by
    have hsent : envRefused.sent "http://10.0.0.1:4181/health" = 0 := rfl
    simp only [doProbe, hpick, hip, hurl, hget, hsent, closeBody, if_false]
  rw [hd]
  simp [aliveSet, logMsg, oneIpWorker, NewProbeWorker, noMetrics]

/-- Every transport error that comes with a nil response makes `doProbe` panic,
whatever address was selected. -/
theorem doProbe_nil_response_panics (pw : ProbeWorker) (env : ProbeEnv) (ip err : String)
    (hpick : pickAnIP pw env.randInt = some ip) (hip : ip ≠ "")
    (hget : env.get (probeURL ip pw.probe.port pw.probe.path) = { resp := none, err := some err }) :
    (doProbe pw env).panicked = true := by
  simp [doProbe, hpick, hip, hget, closeBody]

/-- C6 (counterexample): the address list `[""]` is not empty, yet `doProbe`
never calls `client.Get` and no GET request is sent. -/
theorem doProbe_blank_address_no_request :
    blankIpWorker.probe.gatewayIps ≠ [] ∧
      (doProbe blankIpWorker env200).getCalls = [] ∧
      (doProbe blankIpWorker env200).sent = 0 ∧
      (doProbe blankIpWorker env200).worker.metrics.alive = [0] := by
  refine ⟨by decide, ?_, ?_, ?_⟩ <;>
    simp [doProbe, pickAnIP, blankIpWorker, blankIpSpec, NewProbeWorker, env200, aliveSet, logMsg,
      noMetrics]

/-- One call of `client.Get` is not one GET request: when the client follows a
redirect, the one call sends two. -/
theorem doProbe_redirect_two_requests :
    (doProbe oneIpWorker envRedirect).getCalls = ["http://10.0.0.1:4181/health"] ∧
      (doProbe oneIpWorker envRedirect).sent = 2 ∧
      (doProbe oneIpWorker envRedirect).panicked = false := by
  have hpick : pickAnIP oneIpWorker envRedirect.randInt = some "10.0.0.1" := by decide
  have hurl : probeURL "10.0.0.1" oneIpWorker.probe.port oneIpWorker.probe.path
      = "http://10.0.0.1:4181/health" := by decide
  have h := doProbe_getCalls_of_pick oneIpWorker envRedirect "10.0.0.1" hpick (by decide)
  rw [hurl] at h
  refine ⟨h.1, h.2, ?_⟩
  simp [doProbe, hpick, hurl, envRedirect, closeBody]
  decide

/-- When the address makes the URL string unparsable, the one call of
`client.Get` sends no request and returns a nil response, and `doProbe` panics. -/
theorem doProbe_bad_url_no_request :
    (doProbe badHostWorker envBadURL).getCalls = ["http://gw host:4181/health"] ∧
      (doProbe badHostWorker envBadURL).sent = 0 ∧
      (doProbe badHostWorker envBadURL).panicked = true := by
  have hpick : pickAnIP badHostWorker envBadURL.randInt = some "gw host" := by decide
  have hurl : probeURL "gw host" badHostWorker.probe.port badHostWorker.probe.path
      = "http://gw host:4181/health" := by decide
  have h := doProbe_getCalls_of_pick badHostWorker envBadURL "gw host" hpick (by decide)
  rw [hurl] at h
  refine ⟨h.1, h.2, ?_⟩
  exact doProbe_nil_response_panics badHostWorker envBadURL "gw host" _ hpick (by decide)
    (by rw [hurl]; rfl)

/-- C6 (amended): for every worker and surroundings, `pickAnIP` never indexes out
of range. If the address list is empty, or the element at `randInt % len` is the
empty string, `doProbe` appends 0 to the liveness gauge, never calls
`client.Get`, sends no GET request and does not panic. If the list is not empty
and that element `a` is not the empty string, `doProbe` calls `client.Get`
exactly once, with the string `http://a:port/path` built from the port and path
of the current spec, and `a` is an element of the list; the GET requests sent are
the ones the client sends during that one call, whatever their number. -/
theorem doProbe_get_calls (pw : ProbeWorker) (env : ProbeEnv) :
    (pw.probe.gatewayIps = [] →
        (doProbe pw env).getCalls = [] ∧
          (doProbe pw env).sent = 0 ∧
          (doProbe pw env).worker.metrics.alive = pw.metrics.alive ++ [0] ∧
          (doProbe pw env).panicked = false) ∧
      (pw.probe.gatewayIps ≠ [] →
        env.randInt % pw.probe.gatewayIps.length < pw.probe.gatewayIps.length ∧
          ∃ a, a ∈ pw.probe.gatewayIps ∧
            pw.probe.gatewayIps[env.randInt % pw.probe.gatewayIps.length]? = some a ∧
            (a = "" →
              (doProbe pw env).getCalls = [] ∧
                (doProbe pw env).sent = 0 ∧
                (doProbe pw env).worker.metrics.alive = pw.metrics.alive ++ [0] ∧
                (doProbe pw env).panicked = false) ∧
            (a ≠ "" →
              (doProbe pw env).getCalls
                  = ["http://" ++ a ++ ":" ++ toString pw.probe.port ++ "/" ++ pw.probe.path] ∧
                (doProbe pw env).sent
                  = env.sent ("http://" ++ a ++ ":" ++ toString pw.probe.port ++ "/"
                      ++ pw.probe.path))) := by
  constructor
  · intro h
    have hp := (pickAnIP_in_bounds pw env.randInt).1 h
    simp [doProbe, hp, aliveSet, logMsg]
  · intro h
    obtain ⟨hlt, a, hmem, hidx, hp⟩ := (pickAnIP_in_bounds pw env.randInt).2 h
    refine ⟨hlt, a, hmem, hidx, ?_, ?_⟩
    · intro ha
      subst ha
      simp [doProbe, hp, aliveSet, logMsg]
    · intro ha
      exact doProbe_getCalls_of_pick pw env a hp ha

/-! ## Theorems: `Stop` and the scheduling loop -/

/-- C4 (counterexample): on a fresh worker the second `Stop` panics. -/
theorem Stop_twice_panics :
    (stopTimes (NewProbeWorker emptySpec noMetrics "gw") 1).panicked = false ∧
      (stopTimes (NewProbeWorker emptySpec noMetrics "gw") 2).panicked = true := by
  simp [stopTimes, Stop, logMsg, NewProbeWorker]

/-- C4 (amended): on a worker whose stop channel is open, the first `Stop`
returns without a panic and leaves the channel closed; `Stop` on a worker whose
channel is closed panics, so after the first call every further call does, and
so does every run of two or more calls. -/
theorem Stop_once_then_panics (pw : ProbeWorker) (h : pw.stopClosed = false) :
    (Stop pw).panicked = false ∧
      (Stop pw).worker.stopClosed = true ∧
      (Stop (Stop pw).worker).panicked = true ∧
      ∀ n, (stopTimes pw (n + 2)).panicked = true := by
  simp [stopTimes, Stop, logMsg, h]

/-- Witness for C4 (amended): a fresh worker. -/
theorem Stop_once_then_panics_witness :
    (NewProbeWorker emptySpec noMetrics "gw").stopClosed = false ∧
      (Stop (NewProbeWorker emptySpec noMetrics "gw")).panicked = false ∧
      (stopTimes (NewProbeWorker emptySpec noMetrics "gw") 5).panicked = true :=
  have h := Stop_once_then_panics (NewProbeWorker emptySpec noMetrics "gw") rfl
  ⟨rfl, h.1, h.2.2.2 3⟩

/-- C7 (code defect): with `periodSeconds = 10` the loop creates its ticker with a
period of 10 milliseconds and a maximum jitter of 1 millisecond; the period is
not 10 seconds. The jitter is at most the period. -/
theorem tickerArgs_milliseconds :
    oneIpWorker.probe.periodSeconds = 10 ∧
      tickerArgs oneIpWorker = (10 * Millisecond, 1 * Millisecond) ∧
      (tickerArgs oneIpWorker).1 ≠ 10 * Second ∧
      (tickerArgs oneIpWorker).2 ≤ (tickerArgs oneIpWorker).1 := by
  decide

/-- As long as the multiplication does not overflow `int64`, the ticker period is
`periodSeconds` milliseconds and the jitter `periodSeconds / 10` (rounded down)
milliseconds, which is at most the period. -/
theorem tickerArgs_eq (pw : ProbeWorker) (h : pw.probe.periodSeconds < 2 ^ 32) :
    tickerArgs pw = ((pw.probe.periodSeconds : Int) * Millisecond,
        ((pw.probe.periodSeconds / 10 : Nat) : Int) * Millisecond) ∧
      (tickerArgs pw).2 ≤ (tickerArgs pw).1 := by
  have h10 : pw.probe.periodSeconds / 10 ≤ pw.probe.periodSeconds := Nat.div_le_self _ _
  have e1 : wrapInt64 ((pw.probe.periodSeconds : Int) * Millisecond)
      = (pw.probe.periodSeconds : Int) * Millisecond := by
    unfold wrapInt64 Millisecond
    omega
  have e2 : wrapInt64 (((pw.probe.periodSeconds / 10 : Nat) : Int) * Millisecond)
      = ((pw.probe.periodSeconds / 10 : Nat) : Int) * Millisecond := by
    unfold wrapInt64 Millisecond
    omega
  simp only [tickerArgs, e1, e2, true_and]
  unfold Millisecond
  omega

/-- Once the loop has been left, no event starts a probe or calls `client.Get`. -/
theorem foldl_loopStep_exited (events : List LoopEvent) (s : LoopState) (h : s.exited = true) :
    (events.foldl loopStep s).exited = true ∧
      (events.foldl loopStep s).probes = s.probes ∧
      (events.foldl loopStep s).getCalls = s.getCalls := by
  induction events generalizing s with
  | nil => exact ⟨h, rfl, rfl⟩
  | cons e es ih =>
    cases e with
    | stop =>
      have := ih { s with worker := (Stop s.worker).worker,
                          panicked := s.panicked || (Stop s.worker).panicked } h
      simpa [loopStep] using this
    | waitPoint t c env =>
      have hs : loopStep s (.waitPoint t c env) = s := by
        simp [loopStep, loopIteration, h]
      simpa [List.foldl, hs] using ih s h

/-- C8 (counterexample): `Stop` is called, then the loop reaches its wait point
with a tick ready and `select` takes the ticker case: a probe starts after
`Stop`, and the loop has not exited. -/
theorem run_probe_after_stop :
    (run oneIpWorker [.stop, .waitPoint true true env200]).probes = 1 ∧
      (run oneIpWorker [.stop, .waitPoint true true env200]).getCalls
        = ["http://10.0.0.1:4181/health"] ∧
      (run oneIpWorker [.stop, .waitPoint true true env200]).exited = false := by
  have hstop : (Stop oneIpWorker).worker.stopClosed = true := by
    simp [Stop, logMsg, oneIpWorker, NewProbeWorker]
  have hpan : (Stop oneIpWorker).panicked = false := by
    simp [Stop, logMsg, oneIpWorker, NewProbeWorker]
  have hpick : pickAnIP (Stop oneIpWorker).worker env200.randInt = some "10.0.0.1" := by decide
  have hreq : (doProbe (Stop oneIpWorker).worker env200).getCalls
      = ["http://10.0.0.1:4181/health"] := by
    rw [(doProbe_getCalls_of_pick _ _ "10.0.0.1" hpick (by decide)).1]
    decide
  simp [run, loopStep, loopIteration, selectCase, hstop, hpan, hreq]

/-- C8 (amended): in an iteration of the running loop in which the stop signal
is already set, the loop exits without starting a probe exactly when no tick is
ready or `select` takes the stop case; then worker, probe count and the calls
of `client.Get` are unchanged, and no later event starts a probe. When a tick is ready at the
same wait point and `select` takes the ticker case, one more `doProbe` starts
and the loop does not exit in that iteration. -/
theorem loopIteration_stop_set (s : LoopState) (tickReady pickTick : Bool) (env : ProbeEnv)
    (hstop : s.worker.stopClosed = true) (hrun : s.exited = false) (hpan : s.panicked = false) :
    ((tickReady = false ∨ pickTick = false) →
        (loopIteration s tickReady pickTick env).exited = true ∧
          (loopIteration s tickReady pickTick env).probes = s.probes ∧
          (loopIteration s tickReady pickTick env).getCalls = s.getCalls ∧
          (loopIteration s tickReady pickTick env).worker = s.worker ∧
          ∀ events : List LoopEvent,
            (events.foldl loopStep (loopIteration s tickReady pickTick env)).probes = s.probes) ∧
      ((tickReady = true ∧ pickTick = true) →
        (loopIteration s tickReady pickTick env).exited = false ∧
          (loopIteration s tickReady pickTick env).probes = s.probes + 1 ∧
          (loopIteration s tickReady pickTick env).worker = (doProbe s.worker env).worker) := by
  constructor
  · intro h
    have hsel : selectCase s.worker.stopClosed tickReady pickTick = .stopCh := by
      rcases h with h | h <;> cases tickReady <;> cases pickTick <;>
        simp_all [selectCase]
    have hit : loopIteration s tickReady pickTick env = { s with exited := true } := by
      simp [loopIteration, hrun, hpan, hsel]
    rw [hit]
    refine ⟨rfl, rfl, rfl, rfl, fun events => ?_⟩
    exact (foldl_loopStep_exited events { s with exited := true } rfl).2.1
  · rintro ⟨ht, hc⟩
    subst ht hc
    simp [loopIteration, hrun, hpan, hstop, selectCase]

/-- Witness for C8 (amended): the loop state after `Stop`, no tick ready. -/
theorem loopIteration_stop_set_witness :
    (run oneIpWorker [.stop]).worker.stopClosed = true ∧
      (loopIteration (run oneIpWorker [.stop]) false true env200).exited = true ∧
      (loopIteration (run oneIpWorker [.stop]) false true env200).probes = 0 :=
  have h := loopIteration_stop_set (run oneIpWorker [.stop]) false true env200
    (by simp [run, loopStep, Stop, logMsg, oneIpWorker, NewProbeWorker])
    (by simp [run, loopStep])
    (by simp [run, loopStep, Stop, logMsg, oneIpWorker, NewProbeWorker])
  ⟨by simp [run, loopStep, Stop, logMsg, oneIpWorker, NewProbeWorker],
    (h.1 (Or.inl rfl)).1, by
      have := (h.1 (Or.inl rfl)).2.1
      simpa [run, loopStep] using this⟩

end ServiceMirror

/-! ## Theorems: `export-service` -/

namespace Cli

/-- C10 (code defect): for a service that has no annotations (the map is nil),
with lookup and update succeeding, `export-service` neither succeeds nor returns
an error: the first assignment `svc.Annotations[...] = ...` panics, nothing is
updated and nothing is printed. -/
theorem exportService_nil_annotations_panics :
    bareCluster.get exampleOpts.namespace_ exampleOpts.service = .ok bareService ∧
      bareService.Annotations = none ∧
      (exportService exampleOpts bareCluster).panicked = true ∧
      (exportService exampleOpts bareCluster).err = none ∧
      (exportService exampleOpts bareCluster).updated = none ∧
      (exportService exampleOpts bareCluster).stdout = [] := by
  simp [exportService, bareCluster, bareService, mapHas, mapAssign]

/-- The panic does not depend on the example: whenever the service found has a
nil annotation map, the command panics. -/
theorem exportService_nil_annotations (opts : exportServiceOptions) (k : Cluster) (svc : Service)
    (hcfg : k.rawConfigErr = none) (hapi : k.newAPIErr = none)
    (hget : k.get opts.namespace_ opts.service = .ok svc) (hnil : svc.Annotations = none) :
    (exportService opts k).panicked = true := by
  simp [exportService, hcfg, hapi, hget, hnil, mapHas, mapAssign]

/-- On a service whose annotation map is not nil, with lookup and update
succeeding: if the map has the gateway-name or the gateway-namespace key, the
command returns the "has already been exported" error and calls no update;
otherwise it returns nil, updates the service with both keys set (the name key
provided the two keys differ) and every other key as it was. -/
theorem exportService_nonnil (opts : exportServiceOptions) (k : Cluster) (svc : Service)
    (m : Finmap fun _ : String => String)
    (hcfg : k.rawConfigErr = none) (hapi : k.newAPIErr = none)
    (hget : k.get opts.namespace_ opts.service = .ok svc) (hm : svc.Annotations = some m)
    (hupd : ∀ ns s, k.updateErr ns s = none) :
    (exportService opts k).panicked = false ∧
      ((k.GatewayNameAnnotation ∈ m ∨ k.GatewayNsAnnotation ∈ m) →
        (exportService opts k).err
            = some ("service " ++ svc.Namespace ++ "/" ++ svc.Name ++ " has already been exported") ∧
          (exportService opts k).updated = none) ∧
      ((k.GatewayNameAnnotation ∉ m ∧ k.GatewayNsAnnotation ∉ m) →
        (exportService opts k).err = none ∧
          ∃ m1, (exportService opts k).updated = some { svc with Annotations := some m1 } ∧
            m1.lookup k.GatewayNsAnnotation = some opts.gatewayNamespace ∧
            (k.GatewayNameAnnotation ≠ k.GatewayNsAnnotation →
              m1.lookup k.GatewayNameAnnotation = some opts.gatewayName) ∧
            ∀ key, key ≠ k.GatewayNameAnnotation → key ≠ k.GatewayNsAnnotation →
              m1.lookup key = m.lookup key) := by
  refine ⟨?_, ?_, ?_⟩
  · by_cases h1 : k.GatewayNameAnnotation ∈ m <;> by_cases h2 : k.GatewayNsAnnotation ∈ m <;>
      simp [exportService, hcfg, hapi, hget, hm, mapHas, mapAssign, hupd, h1, h2]
  · intro h
    have hb : (decide (k.GatewayNameAnnotation ∈ m) || decide (k.GatewayNsAnnotation ∈ m)) = true := by
      rcases h with h | h <;> simp [h]
    simp [exportService, hcfg, hapi, hget, hm, mapHas, hb]
  · rintro ⟨h1, h2⟩
    refine ⟨by simp [exportService, hcfg, hapi, hget, hm, mapHas, mapAssign, hupd, h1, h2],
      (m.insert k.GatewayNameAnnotation opts.gatewayName).insert k.GatewayNsAnnotation
        opts.gatewayNamespace, ?_, ?_, ?_, ?_⟩
    · simp [exportService, hcfg, hapi, hget, hm, mapHas, mapAssign, hupd, h1, h2]
    · exact Finmap.lookup_insert _
    · intro hne
      rw [Finmap.lookup_insert_of_ne _ hne, Finmap.lookup_insert]
    · intro key hk1 hk2
      rw [Finmap.lookup_insert_of_ne _ hk2, Finmap.lookup_insert_of_ne _ hk1]

end Cli

/-! ## Theorems: `UpdateProbeSpec` against a running probe -/

namespace ServiceMirror

/-- The invariant holds before any goroutine has moved. -/
theorem LockInv_initSys (spec : GatewayProbeSpec) (specs : List GatewayProbeSpec) (randInt : Nat) :
    LockInv (spec :: specs) (initSys spec specs randInt) := by
  refine ⟨by simp [initSys], ?_, by simp [initSys], ?_, by simp [initSys], by simp [initSys, ReadsInv]⟩
  · intro u hu
    simp only [initSys, List.mem_map] at hu
    obtain ⟨sp, hsp, rfl⟩ := hu
    exact List.mem_cons_of_mem _ hsp
  · simp [initSys, List.countP_map, Updater.holds, List.countP_eq_zero]

/-- A step of the probe keeps the invariant. -/
theorem LockInv_proberStep (cands : List GatewayProbeSpec) (s : Sys) (h : LockInv cands s) :
    LockInv cands (proberStep s) := by
  obtain ⟨hp, hs, hr, hw, hx, hreads⟩ := h
  rcases s with ⟨probe, readers, writer, ⟨pc, numIps, ip, port, path⟩, updaters, randInt⟩
  simp only at hp hs hr hw hx hreads
  match pc with
  | 0 =>
    cases writer with
    | true => exact ⟨hp, hs, hr, hw, hx, hreads⟩
    | false =>
      simp only [proberStep]
      simp at hr
      refine ⟨hp, hs, ?_, hw, ?_, ?_⟩ <;> simp [hr, ReadsInv]
  | 1 =>
    simp only [proberStep]
    refine ⟨hp, hs, ?_, hw, hx, ?_⟩
    · simpa using hr
    · simp [ReadsInv]
  | 2 =>
    simp only [ReadsInv] at hreads
    have hpk : (if numIps = 0 then some "" else probe.gatewayIps[randInt % numIps]?)
        = pickFrom probe randInt := by
      simp [pickFrom, hreads]
    simp only [proberStep, hpk]
    obtain ⟨ipv, hipv⟩ : ∃ ipv, pickFrom probe randInt = ipv := ⟨_, rfl⟩
    rw [hipv]
    by_cases hc : ipv = none ∨ ipv = some ""
    · simp only [hc, if_true]
      refine ⟨hp, hs, ?_, hw, hx, ?_⟩
      · simpa using hr
      · show readsFrom _ _ _
        exact ⟨hipv.symm, fun h1 h2 => by rcases hc with h | h <;> contradiction⟩
    · simp only [hc, if_false]
      refine ⟨hp, hs, ?_, hw, hx, ?_⟩
      · simpa using hr
      · show _ ∧ _ ∧ _
        exact ⟨hipv.symm, fun h => hc (Or.inl h), fun h => hc (Or.inr h)⟩
  | 3 =>
    simp only [ReadsInv] at hreads
    simp only [proberStep]
    refine ⟨hp, hs, ?_, hw, hx, ?_⟩
    · simpa using hr
    · show _ ∧ _ ∧ _ ∧ _
      exact ⟨hreads.1, hreads.2.1, hreads.2.2, rfl⟩
  | 4 =>
    simp only [ReadsInv] at hreads
    simp only [proberStep]
    refine ⟨hp, hs, ?_, hw, hx, ?_⟩
    · simpa using hr
    · show readsFrom _ _ _
      exact ⟨hreads.1, fun _ _ => ⟨hreads.2.2.2, rfl⟩⟩
  | 5 =>
    simp only [ReadsInv] at hreads
    simp only [proberStep]
    simp at hr
    refine ⟨hp, hs, ?_, hw, ?_, ?_⟩
    · simp [hr]
    · simp [hr]
    · simp only [ReadsInv]
      exact ⟨probe, hp, hreads⟩
  | n + 6 =>
    exact ⟨hp, hs, hr, hw, hx, hreads⟩

/-- A goroutine between `Lock` and `Unlock` witnesses that the write lock is held. -/
theorem writer_of_holds {cands : List GatewayProbeSpec} {s : Sys} (h : LockInv cands s)
    {u : Updater} (hu : u ∈ s.updaters) (hold : u.holds = true) : s.writer = true := by
  have hpos : 0 < s.updaters.countP Updater.holds := List.countP_pos_iff.mpr ⟨u, hu, hold⟩
  have hw := h.writer_eq
  by_cases hwr : s.writer = true
  · exact hwr
  · rw [if_neg hwr] at hw
    omega

/-- While the write lock is held the probe is outside its read section. -/
theorem prober_outside_of_writer {cands : List GatewayProbeSpec} {s : Sys} (h : LockInv cands s)
    (hw : s.writer = true) : s.prober.pc = 0 ∨ 6 ≤ s.prober.pc := by
  have h0 := h.excl hw
  have hr := h.readers_eq
  by_cases hc : 1 ≤ s.prober.pc ∧ s.prober.pc ≤ 5
  · rw [if_pos hc] at hr
    omega
  · omega

/-- Outside the read section `ReadsInv` does not mention the current spec. -/
theorem ReadsInv_outside (cands : List GatewayProbeSpec) (s : Sys) (probe : GatewayProbeSpec)
    (us : List Updater) (w : Bool) (hout : s.prober.pc = 0 ∨ 6 ≤ s.prober.pc)
    (h : ReadsInv cands s) :
    ReadsInv cands { s with probe := probe, updaters := us, writer := w } := by
  rcases s with ⟨probe0, readers, writer, ⟨pc, numIps, ip, port, path⟩, updaters, randInt⟩
  simp only at hout
  match pc with
  | 0 => trivial
  | 1 | 2 | 3 | 4 | 5 => omega
  | n + 6 => exact h

/-- A step of an `UpdateProbeSpec` goroutine keeps the invariant. -/
theorem LockInv_updaterStep (cands : List GatewayProbeSpec) (s : Sys) (i : Nat)
    (h : LockInv cands s) : LockInv cands (updaterStep s i) := by
  unfold updaterStep
  cases hget : s.updaters[i]? with
  | none => exact h
  | some u =>
    obtain ⟨hi, hui⟩ := List.getElem?_eq_some_iff.mp hget
    have humem : u ∈ s.updaters := hui ▸ List.getElem_mem hi
    have hspecs : ∀ (pc : Nat) (v : Updater),
        v ∈ s.updaters.set i { u with pc := pc } → v.spec ∈ cands := by
      intro pc v hv
      rcases List.mem_or_eq_of_mem_set hv with hv | hv
      · exact h.specs_mem v hv
      · subst hv
        exact h.specs_mem u humem
    have hcount : ∀ pc : Nat,
        (s.updaters.set i { u with pc := pc }).countP Updater.holds
          = s.updaters.countP Updater.holds - (if u.holds = true then 1 else 0)
            + (if ({ u with pc := pc } : Updater).holds = true then 1 else 0) := by
      intro pc
      rw [List.countP_set _ _ _ _ hi, hui]
    simp only
    match hpc : u.pc with
    | 0 =>
      simp only
      by_cases hfree : (s.writer || decide (0 < s.readers)) = true
      · rw [if_pos hfree]
        exact h
      · rw [if_neg hfree]
        simp only [Bool.or_eq_true, decide_eq_true_eq, not_or, Bool.not_eq_true, Nat.not_lt,
          Nat.le_zero] at hfree
        have hcnt := h.writer_eq
        simp only [hfree.1] at hcnt
        refine ⟨h.probe_mem, hspecs 1, h.readers_eq, ?_, fun _ => hfree.2, ?_⟩
        · rw [hcount 1]
          simp [Updater.holds, hpc, hcnt]
        · have := h.reads
          rcases s with ⟨probe0, readers, writer, ⟨pc, numIps, ip, port, path⟩, updaters, randInt⟩
          exact this
    | 1 =>
      have hold : u.holds = true := by simp [Updater.holds, hpc]
      have hwr := writer_of_holds h humem hold
      have hcnt := h.writer_eq
      simp only [hwr, if_true] at hcnt
      refine ⟨h.specs_mem u humem, hspecs 2, h.readers_eq, ?_, h.excl, ?_⟩
      · rw [hcount 2]
        simp [Updater.holds, hpc, hcnt, hwr]
      · have := ReadsInv_outside cands s u.spec (s.updaters.set i { u with pc := 2 }) s.writer
          (prober_outside_of_writer h hwr) h.reads
        exact this
    | 2 =>
      have hold : u.holds = true := by simp [Updater.holds, hpc]
      have hwr := writer_of_holds h humem hold
      have hcnt := h.writer_eq
      simp only [hwr, if_true] at hcnt
      refine ⟨h.probe_mem, hspecs 3, h.readers_eq, ?_, fun hf => by simp at hf, ?_⟩
      · rw [hcount 3]
        simp [Updater.holds, hpc, hcnt]
      · have := h.reads
        rcases s with ⟨probe0, readers, writer, ⟨pc, numIps, ip, port, path⟩, updaters, randInt⟩
        exact this
    | n + 3 => exact h

/-- Every schedule keeps the invariant. -/
theorem LockInv_exec (cands : List GatewayProbeSpec) (schedule : List Nat) (s : Sys)
    (h : LockInv cands s) : LockInv cands (exec s schedule) := by
  induction schedule generalizing s with
  | nil => exact h
  | cons t ts ih =>
    cases t with
    | zero => exact ih (proberStep s) (LockInv_proberStep cands s h)
    | succ i => exact ih (updaterStep s i) (LockInv_updaterStep cands s i h)

/-- No step changes the random draw. -/
theorem sysStep_randInt (s : Sys) (t : Nat) : (sysStep s t).randInt = s.randInt := by
  cases t with
  | zero =>
    simp only [sysStep, proberStep]
    split <;> (try split) <;> rfl
  | succ i =>
    simp only [sysStep, updaterStep]
    split
    · rfl
    · split <;> (try split) <;> rfl

/-- No schedule changes the random draw. -/
theorem exec_randInt (schedule : List Nat) (s : Sys) : (exec s schedule).randInt = s.randInt := by
  induction schedule generalizing s with
  | nil => rfl
  | cons t ts ih =>
    show (exec (sysStep s t) ts).randInt = s.randInt
    rw [ih, sysStep_randInt]

/-- In a state that satisfies the invariant, a probe that has done its reads has
read from one candidate spec. -/
theorem readsFrom_of_LockInv {cands : List GatewayProbeSpec} {s : Sys} (h : LockInv cands s)
    (hdone : 5 ≤ s.prober.pc) : ∃ snap, snap ∈ cands ∧ readsFrom s.prober snap s.randInt := by
  have hreads := h.reads
  have hmem := h.probe_mem
  rcases s with ⟨probe0, readers, writer, ⟨pc, numIps, ip, port, path⟩, updaters, r⟩
  simp only at hdone
  match pc with
  | 0 | 1 | 2 | 3 | 4 => omega
  | 5 => exact ⟨probe0, hmem, hreads⟩
  | n + 6 => exact hreads

/-- C9: for every initial spec, every list of concurrent `UpdateProbeSpec` calls
and every interleaving of their steps with those of one `doProbe`, once the
probe has done its reads, the address, port and path it read all come from one
spec, the initial one or the argument of one of the calls. At every point of
every interleaving, an update that is about to assign `pw.probe` holds the write
lock with no read lock held, and while the probe holds the read lock the write
lock is free. -/
theorem doProbe_single_snapshot (spec : GatewayProbeSpec) (specs : List GatewayProbeSpec)
    (randInt : Nat) (schedule : List Nat)
    (hdone : 5 ≤ (exec (initSys spec specs randInt) schedule).prober.pc) :
    (∃ snap, snap ∈ spec :: specs ∧
        readsFrom (exec (initSys spec specs randInt) schedule).prober snap randInt) ∧
      ∀ sched : List Nat,
        (∀ u, u ∈ (exec (initSys spec specs randInt) sched).updaters → u.pc = 1 →
          (exec (initSys spec specs randInt) sched).writer = true ∧
            (exec (initSys spec specs randInt) sched).readers = 0) ∧
        (1 ≤ (exec (initSys spec specs randInt) sched).prober.pc ∧
            (exec (initSys spec specs randInt) sched).prober.pc ≤ 5 →
          (exec (initSys spec specs randInt) sched).readers = 1 ∧
            (exec (initSys spec specs randInt) sched).writer = false) := by
  constructor
  · have hinv := LockInv_exec (spec :: specs) schedule _ (LockInv_initSys spec specs randInt)
    have hrand : (exec (initSys spec specs randInt) schedule).randInt = randInt :=
      exec_randInt schedule _
    have := readsFrom_of_LockInv hinv hdone
    rwa [hrand] at this
  · intro sched
    have hinv := LockInv_exec (spec :: specs) sched _ (LockInv_initSys spec specs randInt)
    refine ⟨fun u hu hpc => ?_, fun hsec => ?_⟩
    · have hwr := writer_of_holds hinv hu (by simp [Updater.holds, hpc])
      exact ⟨hwr, hinv.excl hwr⟩
    · have hr := hinv.readers_eq
      rw [if_pos hsec] at hr
      refine ⟨hr, ?_⟩
      cases hwr : (exec (initSys spec specs randInt) sched).writer with
      | false => rfl
      | true =>
        have := hinv.excl hwr
        omega

/-- Witness for C9: the update asks for the lock while the probe reads; the probe
finishes with address, port and path of the old spec. -/
theorem doProbe_single_snapshot_witness :
    (exec (initSys oneIpSpec [newIpSpec] 7) updateDuringProbe).prober
        = { pc := 6, numIps := 1, ipToTry := some "10.0.0.1", port := 4181, path := "health" } ∧
      (exec (initSys oneIpSpec [newIpSpec] 7) updateDuringProbe).probe = newIpSpec ∧
      ∃ snap, snap ∈ [oneIpSpec, newIpSpec] ∧
        readsFrom (exec (initSys oneIpSpec [newIpSpec] 7) updateDuringProbe).prober snap 7 :=
  ⟨by decide, by decide,
    (doProbe_single_snapshot oneIpSpec [newIpSpec] 7 updateDuringProbe (by decide)).1⟩

/-- When the update completes first, the probe reads address, port and path of
the new spec. -/
theorem exec_updateBeforeProbe :
    (exec (initSys oneIpSpec [newIpSpec] 7) updateBeforeProbe).prober
      = { pc := 6, numIps := 2, ipToTry := some "10.0.0.3", port := 4191, path := "ready" } := by
  decide

end ServiceMirror
